import Mathlib

/-!
# BigQuery connector (`connectors/bigquery.go`)

A shallow embedding of the connector in `src/connectors/bigquery.go`.

* A Go call either returns or aborts (a run-time panic, or `log.Fatal`
  ending the process): `Except Abort α`.
* The Go `error` interface is `GoError`, with `none` for `nil`.
* The warehouse SDK and the other libraries the connector calls are a record
  `SDK W` of operations over a world `W` (the remote service, the file
  system); each connector method threads the world through the calls it
  makes, in the order of the source.
* Logging (`logrus`) has no influence on results and is left out.
-/

namespace Connectors

/-! ## Go values -/

/-- Values of the Go `error` interface other than `nil`. `Done` is the
sentinel `iterator.Done`; every other error carries its message. -/
inductive GoErr where
  | Done
  | remote (msg : String)
  deriving DecidableEq, Repr

/-- The Go `error` interface: `none` is `nil`. -/
abbrev GoError := Option GoErr

/-- The text of `err.Error()`. -/
def GoErr.Error : GoErr → String
  | .Done => "no more items in iterator"
  | .remote msg => msg

/-- Ways a call ends without returning. -/
inductive Abort where
  | nilPointerDereference
  | nilMapAssignment
  | reflectNewNil
  | logFatal (msg : String)
  deriving DecidableEq, Repr

/-- Go `int64` (and `int` on 64-bit targets): two's-complement wrap-around. -/
def wrapInt64 (x : Int) : Int :=
  (x + 2 ^ 63) % 2 ^ 64 - 2 ^ 63

/-- A non-nil dynamic value held in an `interface{}`: the name of its
dynamic type and a rendering of its contents. -/
structure Dyn where
  typ : String
  val : String
  deriving DecidableEq, Repr

/-- A Go `interface{}`: `none` is the nil interface. -/
abbrev Iface := Option Dyn

/-- Go `reflect.TypeOf`: the dynamic type, `nil` for the nil interface. -/
def reflectTypeOf (v : Iface) : Option String :=
  v.map Dyn.typ

/-- Go `reflect.New(typ).Interface()`: a pointer to a zero value of the type;
`reflect.New(nil)` panics. -/
def reflectNew : Option String → Except Abort Dyn
  | none => .error .reflectNewNil
  | some t => .ok { typ := "*" ++ t, val := "zero" }

/-! ## SDK handles -/

/-- The SDK type `bigquery.Client` (a non-nil client). -/
structure Client where
  projectID : String
  deriving DecidableEq, Repr

/-- The SDK type `bigquery.Dataset`: a reference to a remote dataset. -/
structure Dataset where
  ProjectID : String
  DatasetID : String
  deriving DecidableEq, Repr

/-- The SDK type `bigquery.Table`: a reference to a remote table. -/
structure Table where
  ProjectID : String
  DatasetID : String
  TableID : String
  deriving DecidableEq, Repr

/-- The SDK method `(*Client).Dataset`. -/
def Client.Dataset (c : Client) (id : String) : Dataset :=
  { ProjectID := c.projectID, DatasetID := id }

/-- The SDK method `(*Dataset).Table` on a non-nil receiver; its body is
`&Table{ProjectID: d.ProjectID, DatasetID: d.DatasetID, TableID: tableID, c: d.c}`. -/
def Dataset.Table (d : Dataset) (tableID : String) : Connectors.Table :=
  { ProjectID := d.ProjectID, DatasetID := d.DatasetID, TableID := tableID }

/-- The SDK method `(*Dataset).Table` on a receiver that may be nil: the body
reads the receiver's fields, so a nil receiver is a nil-pointer
dereference. -/
def tableOf (d : Option Dataset) (tableID : String) : Except Abort Table :=
  match d with
  | none => .error .nilPointerDereference
  | some d => .ok (d.Table tableID)

/-- The SDK type `bigquery.Schema`: field names with their types; the nil
schema is the empty list. -/
abbrev Schema := List (String × String)

/-- The SDK type `bigquery.TimePartitioning`; `Expiration` is a
`time.Duration`, an `int64` of nanoseconds. -/
structure TimePartitioning where
  Expiration : Int
  deriving DecidableEq, Repr

/-- The fields of `bigquery.TableMetadata` the connector sets. -/
structure TableMetadata where
  Schema : Schema
  TimePartitioning : TimePartitioning
  deriving DecidableEq, Repr

/-- The fields of `bigquery.DatasetMetadata` the connector sets. -/
structure DatasetMetadata where
  Name : String
  deriving DecidableEq, Repr

/-- The fields of `bigquery.GCSReference` the connector sets. -/
structure GCSReference where
  URIs : List String
  AllowJaggedRows : Bool
  FieldDelimiter : String
  deriving DecidableEq, Repr

/-- The SDK constructor `bigquery.NewGCSReference`. -/
def NewGCSReference (uri : String) : GCSReference :=
  { URIs := [uri], AllowJaggedRows := false, FieldDelimiter := "" }

/-- An open local file (`*os.File`). -/
structure File where
  name : String
  deriving DecidableEq, Repr

/-- The fields of `bigquery.ReaderSource` the connector sets. -/
structure ReaderSource where
  file : File
  AllowJaggedRows : Bool
  deriving DecidableEq, Repr

/-- The SDK constructor `bigquery.NewReaderSource`. -/
def NewReaderSource (f : File) : ReaderSource :=
  { file := f, AllowJaggedRows := false }

/-- The SDK interface `bigquery.LoadSource`. -/
inductive LoadSource where
  | gcs (r : GCSReference)
  | reader (r : ReaderSource)
  deriving DecidableEq, Repr

/-- The SDK type `bigquery.TableWriteDisposition`. -/
inductive WriteDisposition where
  | unset
  | WriteTruncate
  deriving DecidableEq, Repr

/-- The SDK type `bigquery.TableCreateDisposition`. -/
inductive CreateDisposition where
  | unset
  | CreateNever
  deriving DecidableEq, Repr

/-- The SDK type `bigquery.Copier`, as `CopierFrom` builds it. -/
structure Copier where
  Dst : Table
  Srcs : List Table
  WriteDisposition : WriteDisposition
  deriving DecidableEq, Repr

/-- The SDK type `bigquery.Loader`, as `LoaderFrom` builds it. -/
structure Loader where
  Dst : Table
  Src : LoadSource
  CreateDisposition : CreateDisposition
  deriving DecidableEq, Repr

/-- The SDK type `bigquery.Extractor`, as `ExtractorTo` builds it. -/
structure Extractor where
  Src : Table
  Dst : GCSReference
  DisableHeader : Bool
  deriving DecidableEq, Repr

/-- The SDK type `bigquery.Job`: a handle to a submitted job. -/
structure Job where
  id : Nat
  deriving DecidableEq, Repr

/-- The SDK type `bigquery.JobStatus`; the method `Err()` returns the field
`err`, the job's terminal error. -/
structure JobStatus where
  Err : GoError
  deriving DecidableEq, Repr

/-- A row as `RowIterator.Next` stores it: a slice of values. -/
abbrev Row := List String

/-- The token source `conf.TokenSource(ctx)` built from a key file. -/
structure TokenSource where
  key : String
  deriving DecidableEq, Repr

/-- The libraries the connector calls, over a world `W`. A call that reaches
the remote service or the file system returns its outcome with the world it
leaves. A cursor (`DatasetIterator`, `TableIterator`, `RowIterator`) is the
list of the outcomes of its successive `Next` calls; past the end of the list
`Next` returns `iterator.Done`. On an error `Next` returns a nil item. -/
structure SDK (W : Type) where
  pathJoin : String → String → String
  ReadFile : String → W → Except GoErr String × W
  JWTConfigFromJSON : String → W → Except GoErr TokenSource × W
  NewClient : String → Option TokenSource → W → Except GoErr Client × W
  DatasetCreate : Dataset → DatasetMetadata → W → GoError × W
  TableCreate : Table → TableMetadata → W → GoError × W
  InferSchema : Dyn → Schema × GoError
  Put : Table → Iface → W → GoError × W
  Delete : Table → W → GoError × W
  Datasets : Client → W → List (Except GoErr Dataset)
  Tables : Dataset → W → List (Except GoErr Table)
  Read : Table → W → List (Except GoErr Row)
  CopierRun : Copier → W → Except GoErr Job × W
  LoaderRun : Loader → W → Except GoErr Job × W
  ExtractorRun : Extractor → W → Except GoErr Job × W
  JobWait : Job → W → Except GoErr JobStatus × W
  osOpen : String → W → Except GoErr File × W

/-! ## The connector -/

/-- The struct `BigqueryConnector`. `client` is a pointer (`none` is nil) and
`dataset` a Go map (`none` is the nil map of the zero value); the field `ctx`
is `context.Background()` and carries no data. -/
structure BigqueryConnector where
  client : Option Client
  dataset : Option (String → Option Dataset)

/-- The map read `b.dataset[datasetID]`: the stored handle, or the zero value
(a nil pointer) when the key is absent or the map is nil. -/
def BigqueryConnector.lookup (b : BigqueryConnector) (datasetID : String) : Option Dataset :=
  match b.dataset with
  | none => none
  | some m => m datasetID

/-- The package-level variables `onceBigquery` (its done flag) and
`bigQueryConnector`. -/
structure Process where
  onceBigquery : Bool
  bigQueryConnector : BigqueryConnector

/-- The state of a process at start: the guard not yet run, the connector the
zero value. -/
def Process.start : Process :=
  { onceBigquery := false, bigQueryConnector := { client := none, dataset := none } }

/-- The function `Instance`. The pointer it returns is always
`&bigQueryConnector`, the package-level variable of the returned process
state. -/
def Instance {W : Type} (sdk : SDK W) (credsPath projectID : String) (p : Process) (w : W) :
    Except Abort (Process × W) :=
  if p.onceBigquery then .ok (p, w)
  else if credsPath ≠ "" then
    match sdk.ReadFile (sdk.pathJoin credsPath "keyfile.json") w with
    | (.error err, _) => .error (.logFatal err.Error)
    | (.ok jsonKey, w1) =>
      match sdk.JWTConfigFromJSON jsonKey w1 with
      | (.error err, _) => .error (.logFatal err.Error)
      | (.ok conf, w2) =>
        match sdk.NewClient projectID (some conf) w2 with
        | (.error err, _) => .error (.logFatal ("NewBigQueryConnector" ++ err.Error))
        | (.ok client, w3) =>
          .ok ({ onceBigquery := true,
                 bigQueryConnector :=
                   { p.bigQueryConnector with dataset := some (fun _ => none), client := some client } },
               (sdk.NewClient projectID none w3).2)
  else .error (.logFatal "Missing Bigquery credentials path")

/-- The method `SaveEvents`. -/
def SaveEvents {W : Type} (sdk : SDK W) (b : BigqueryConnector) (datasetID tableID : String)
    (event : List Iface) (w : W) : Except Abort (GoError × W) :=
  match tableOf (b.lookup datasetID) tableID with
  | .error p => .error p
  | .ok u =>
    match event with
    | [] => .ok (none, w)
    | e0 :: _ => .ok (sdk.Put u e0 w)

/-- The method `CreateTableIfNotExist`; `dataExpiration` is an `int64`. -/
def CreateTableIfNotExist {W : Type} (sdk : SDK W) (b : BigqueryConnector) (dataExpiration : Int)
    (schema : Iface) (tableID datasetID : String) (w : W) : Except Abort (GoError × W) :=
  match reflectNew (reflectTypeOf schema) with
  | .error p => .error p
  | .ok schemaType =>
    let schemaInfered := (sdk.InferSchema schemaType).1
    let partition : TimePartitioning :=
      { Expiration := wrapInt64 (wrapInt64 dataExpiration * 1000000000) }
    match tableOf (b.lookup datasetID) tableID with
    | .error p => .error p
    | .ok table =>
      match sdk.TableCreate table { Schema := schemaInfered, TimePartitioning := partition } w with
      | (some _, w1) => .ok (none, w1)
      | (none, w1) => .ok (none, w1)

/-- The method `AddDataSet`; it returns the connector with the handle
registered. -/
def AddDataSet {W : Type} (sdk : SDK W) (b : BigqueryConnector) (datasetID : String) (w : W) :
    Except Abort ((BigqueryConnector × GoError) × W) :=
  match b.client with
  | none => .error .nilPointerDereference
  | some c =>
    match b.dataset with
    | none => .error .nilMapAssignment
    | some m =>
      let b1 : BigqueryConnector :=
        { b with dataset := some (fun k => if k = datasetID then some (c.Dataset datasetID) else m k) }
      match b1.lookup datasetID with
      | none => .error .nilPointerDereference
      | some d =>
        match sdk.DatasetCreate d { Name := datasetID } w with
        | (some _, w1) => .ok ((b1, none), w1)
        | (none, w1) => .ok ((b1, none), w1)

/-- The loop of `listDatasets` over the outcomes of `it.Next()`, with the
slice `result` built so far. The error of `Next` is only compared with
`iterator.Done`; after any other error the returned dataset pointer is nil
and `dataset.DatasetID` dereferences it. -/
def listDatasetsLoop : List (Except GoErr Dataset) → List String → Except Abort (List String)
  | [], result => .ok result
  | .error err :: _, result =>
    if err = .Done then .ok result else .error .nilPointerDereference
  | .ok dataset :: it, result => listDatasetsLoop it (result ++ [dataset.DatasetID])

/-- The method `listDatasets`. The `err` of the loop is a new variable of
the loop body; the named result `err` is never assigned and is returned as
`nil`. `(*Client).Datasets` reads `c.projectID`. -/
def listDatasets {W : Type} (sdk : SDK W) (b : BigqueryConnector) (w : W) :
    Except Abort (List String × GoError) :=
  match b.client with
  | none => .error .nilPointerDereference
  | some c =>
    match listDatasetsLoop (sdk.Datasets c w) [] with
    | .error p => .error p
    | .ok result => .ok (result, none)

/-- The loop of `listTables` over the outcomes of `ts.Next()`. -/
def listTablesLoop : List (Except GoErr Table) → List String → List String × GoError
  | [], result => (result, none)
  | .error err :: _, result =>
    if err = .Done then (result, none) else ([], some err)
  | .ok t :: ts, result => listTablesLoop ts (result ++ [t.TableID])

/-- The method `listTables`. `(*Dataset).Tables` stores its receiver in the
iterator and the first `Next` reads `it.dataset.c`: a nil handle is
dereferenced before any request is sent. -/
def listTables {W : Type} (sdk : SDK W) (b : BigqueryConnector) (datasetID : String) (w : W) :
    Except Abort (List String × GoError) :=
  match b.lookup datasetID with
  | none => .error .nilPointerDereference
  | some d => .ok (listTablesLoop (sdk.Tables d w) [])

/-- The loop of `browseTable` over the outcomes of `it.Next(&row)`, with the
counter `amount` (a Go `int`). The error of `Next` is assigned to the named
result `err`, which the final bare `return` hands back. -/
def browseTableLoop : List (Except GoErr Row) → Int → Int × GoError
  | [], amount => (amount, some .Done)
  | .error err :: _, amount =>
    if err = .Done then (amount, some err) else (0, some err)
  | .ok _ :: it, amount => browseTableLoop it (wrapInt64 (amount + 1))

/-- The method `browseTable`. -/
def browseTable {W : Type} (sdk : SDK W) (b : BigqueryConnector) (datasetID tableID : String)
    (w : W) : Except Abort (Int × GoError) :=
  match tableOf (b.lookup datasetID) tableID with
  | .error p => .error p
  | .ok table => .ok (browseTableLoop (sdk.Read table w) 0)

/-- The method `copyTable`. -/
def copyTable {W : Type} (sdk : SDK W) (b : BigqueryConnector) (datasetID srcID dstID : String)
    (w : W) : Except Abort (GoError × W) :=
  match tableOf (b.lookup datasetID) dstID with
  | .error p => .error p
  | .ok dst =>
    match tableOf (b.lookup datasetID) srcID with
    | .error p => .error p
    | .ok src =>
      let copier : Copier := { Dst := dst, Srcs := [src], WriteDisposition := .WriteTruncate }
      match sdk.CopierRun copier w with
      | (.error err, w1) => .ok (some err, w1)
      | (.ok job, w1) =>
        match sdk.JobWait job w1 with
        | (.error err, w2) => .ok (some err, w2)
        | (.ok status, w2) =>
          match status.Err with
          | some err => .ok (some err, w2)
          | none => .ok (none, w2)

/-- The method `deleteTable`. -/
def deleteTable {W : Type} (sdk : SDK W) (b : BigqueryConnector) (datasetID tableID : String)
    (w : W) : Except Abort (GoError × W) :=
  match tableOf (b.lookup datasetID) tableID with
  | .error p => .error p
  | .ok table =>
    match sdk.Delete table w with
    | (some err, w1) => .ok (some err, w1)
    | (none, w1) => .ok (none, w1)

/-- The method `importFromGCS`. -/
def importFromGCS {W : Type} (sdk : SDK W) (b : BigqueryConnector) (datasetID tableID gcsURI : String)
    (w : W) : Except Abort (GoError × W) :=
  let gcsRef : GCSReference := { NewGCSReference gcsURI with AllowJaggedRows := true }
  match tableOf (b.lookup datasetID) tableID with
  | .error p => .error p
  | .ok table =>
    let loader : Loader := { Dst := table, Src := .gcs gcsRef, CreateDisposition := .CreateNever }
    match sdk.LoaderRun loader w with
    | (.error err, w1) => .ok (some err, w1)
    | (.ok job, w1) =>
      match sdk.JobWait job w1 with
      | (.error err, w2) => .ok (some err, w2)
      | (.ok status, w2) =>
        match status.Err with
        | some err => .ok (some err, w2)
        | none => .ok (none, w2)

/-- The method `importFromFile`. -/
def importFromFile {W : Type} (sdk : SDK W) (b : BigqueryConnector) (datasetID tableID filename : String)
    (w : W) : Except Abort (GoError × W) :=
  match sdk.osOpen filename w with
  | (.error err, w0) => .ok (some err, w0)
  | (.ok f, w0) =>
    let source : ReaderSource := { NewReaderSource f with AllowJaggedRows := true }
    match tableOf (b.lookup datasetID) tableID with
    | .error p => .error p
    | .ok table =>
      let loader : Loader := { Dst := table, Src := .reader source, CreateDisposition := .CreateNever }
      match sdk.LoaderRun loader w0 with
      | (.error err, w1) => .ok (some err, w1)
      | (.ok job, w1) =>
        match sdk.JobWait job w1 with
        | (.error err, w2) => .ok (some err, w2)
        | (.ok status, w2) =>
          match status.Err with
          | some err => .ok (some err, w2)
          | none => .ok (none, w2)

/-- The method `exportToGCS`. -/
def exportToGCS {W : Type} (sdk : SDK W) (b : BigqueryConnector) (datasetID tableID gcsURI : String)
    (w : W) : Except Abort (GoError × W) :=
  let gcsRef : GCSReference := { NewGCSReference gcsURI with FieldDelimiter := "," }
  match tableOf (b.lookup datasetID) tableID with
  | .error p => .error p
  | .ok table =>
    let extractor : Extractor := { Src := table, Dst := gcsRef, DisableHeader := true }
    match sdk.ExtractorRun extractor w with
    | (.error err, w1) => .ok (some err, w1)
    | (.ok job, w1) =>
      match sdk.JobWait job w1 with
      | (.error err, w2) => .ok (some err, w2)
      | (.ok status, w2) =>
        match status.Err with
        | some err => .ok (some err, w2)
        | none => .ok (none, w2)

/-! ## Worlds

Two instances of `SDK`: one that records every call it receives and answers
from a script, and one that keeps the remote datasets as a set of ids. -/

/-- A call received by the libraries. -/
inductive Call where
  | ReadFile (path : String)
  | JWTConfigFromJSON (key : String)
  | NewClient (projectID : String) (token : Option TokenSource)
  | DatasetCreate (d : Dataset) (md : DatasetMetadata)
  | TableCreate (t : Table) (md : TableMetadata)
  | Put (t : Table) (payload : Iface)
  | Delete (t : Table)
  | CopierRun (c : Copier)
  | LoaderRun (l : Loader)
  | ExtractorRun (e : Extractor)
  | JobWait (j : Job)
  | osOpen (name : String)
  deriving DecidableEq, Repr

/-- The answers of a scripted world: the error of each call (`none` for
success), the terminal error of each job, and the cursors. -/
structure Script where
  pathJoin : String → String → String
  answer : Call → GoError
  status : Job → GoError
  InferSchema : Dyn → Schema × GoError
  datasets : List (Except GoErr Dataset)
  tables : List (Except GoErr Table)
  rows : List (Except GoErr Row)

/-- A fallible result from an error and the value returned on success. -/
def outcome {α : Type} (err : GoError) (a : α) : Except GoErr α :=
  match err with
  | some e => .error e
  | none => .ok a

/-- The scripted world: the world is the list of the calls received so far,
earliest first; every call is appended to it and answered from the script. -/
def recorder (s : Script) : SDK (List Call) where
  pathJoin := s.pathJoin
  ReadFile path tr := (outcome (s.answer (.ReadFile path)) "key", tr ++ [.ReadFile path])
  JWTConfigFromJSON key tr :=
    (outcome (s.answer (.JWTConfigFromJSON key)) { key := key }, tr ++ [.JWTConfigFromJSON key])
  NewClient projectID token tr :=
    (outcome (s.answer (.NewClient projectID token)) { projectID := projectID },
     tr ++ [.NewClient projectID token])
  DatasetCreate d md tr := (s.answer (.DatasetCreate d md), tr ++ [.DatasetCreate d md])
  TableCreate t md tr := (s.answer (.TableCreate t md), tr ++ [.TableCreate t md])
  InferSchema := s.InferSchema
  Put t payload tr := (s.answer (.Put t payload), tr ++ [.Put t payload])
  Delete t tr := (s.answer (.Delete t), tr ++ [.Delete t])
  Datasets _ _ := s.datasets
  Tables _ _ := s.tables
  Read _ _ := s.rows
  CopierRun c tr := (outcome (s.answer (.CopierRun c)) { id := tr.length }, tr ++ [.CopierRun c])
  LoaderRun l tr := (outcome (s.answer (.LoaderRun l)) { id := tr.length }, tr ++ [.LoaderRun l])
  ExtractorRun e tr :=
    (outcome (s.answer (.ExtractorRun e)) { id := tr.length }, tr ++ [.ExtractorRun e])
  JobWait j tr := (outcome (s.answer (.JobWait j)) { Err := s.status j }, tr ++ [.JobWait j])
  osOpen name tr := (outcome (s.answer (.osOpen name)) { name := name }, tr ++ [.osOpen name])

/-- The script in which every call succeeds and every cursor is empty; paths
are joined by concatenation. -/
def Script.quiet : Script where
  pathJoin dir file := dir ++ file
  answer _ := none
  status _ := none
  InferSchema _ := ([], none)
  datasets := []
  tables := []
  rows := []

/-- A script in which only the submission of a job fails. -/
def Script.runFails : Script :=
  { Script.quiet with
    answer := fun call =>
      match call with
      | .CopierRun _ => some (.remote "submit failed")
      | _ => none }

/-- A script in which only waiting for a job fails. -/
def Script.waitFails : Script :=
  { Script.quiet with
    answer := fun call =>
      match call with
      | .JobWait _ => some (.remote "wait failed")
      | _ => none }

/-- The remote service as a set of dataset ids: the world is the list of the
ids present. Creating a dataset adds its id, or fails when the id is already
present; the dataset cursor enumerates every id without failure. Every other
call succeeds and leaves the set as it is. -/
def datasetStore : SDK (List String) where
  pathJoin dir file := dir ++ file
  ReadFile _ ids := (.ok "key", ids)
  JWTConfigFromJSON key ids := (.ok { key := key }, ids)
  NewClient projectID _ ids := (.ok { projectID := projectID }, ids)
  DatasetCreate d _ ids :=
    if d.DatasetID ∈ ids then (some (.remote "Already Exists"), ids) else (none, ids ++ [d.DatasetID])
  TableCreate _ _ ids := (none, ids)
  InferSchema _ := ([], none)
  Put _ _ ids := (none, ids)
  Delete _ ids := (none, ids)
  Datasets c ids := ids.map (fun id => .ok (c.Dataset id))
  Tables _ _ := []
  Read _ _ := []
  CopierRun _ ids := (.ok { id := 0 }, ids)
  LoaderRun _ ids := (.ok { id := 0 }, ids)
  ExtractorRun _ ids := (.ok { id := 0 }, ids)
  JobWait _ ids := (.ok { Err := none }, ids)
  osOpen name ids := (.ok { name := name }, ids)

/-- A connector as `Instance` leaves it for the project, with the given
datasets registered. -/
def connectorWith (projectID : String) (registered : List String) : BigqueryConnector :=
  { client := some { projectID := projectID },
    dataset := some (fun k =>
      if k ∈ registered then some { ProjectID := projectID, DatasetID := k } else none) }

/-! ## The job pattern, from the specification -/

/-- The pattern the specification gives for every job-based operation:
submit, block on completion, check the terminal status, and return the first
error met at any stage. `run` is the outcome of the submission, `wait` the
outcome of waiting for the submitted job, both with the world they leave. -/
def firstErrorOfStages {W : Type} (run : Except GoErr Job × W)
    (wait : Job → W → Except GoErr JobStatus × W) : GoError × W :=
  match run with
  | (.error err, w1) => (some err, w1)
  | (.ok job, w1) =>
    match wait job w1 with
    | (.error err, w2) => (some err, w2)
    | (.ok status, w2) => (status.Err, w2)

/-- What the claim on job-based operations says of a result `r`, given the
outcome `run` of the submission and the outcomes `wait` of waiting: the error
of the earliest failing stage, with the world that stage left, and nil exactly
when the three stages succeed. -/
def FirstErrorContract {W : Type} (run : Except GoErr Job × W)
    (wait : Job → W → Except GoErr JobStatus × W) (r : GoError × W) : Prop :=
  (∀ e w1, run = (.error e, w1) → r = (some e, w1)) ∧
  (∀ job w1 e w2, run = (.ok job, w1) → wait job w1 = (.error e, w2) → r = (some e, w2)) ∧
  (∀ job w1 st w2, run = (.ok job, w1) → wait job w1 = (.ok st, w2) → r = (st.Err, w2)) ∧
  (r.1 = none ↔
    ∃ job w1 st w2, run = (.ok job, w1) ∧ wait job w1 = (.ok st, w2) ∧ st.Err = none)

/-! ## Lemmas -/

theorem firstErrorOfStages_contract {W : Type} (run : Except GoErr Job × W)
    (wait : Job → W → Except GoErr JobStatus × W) :
    FirstErrorContract run wait (firstErrorOfStages run wait) := by
  obtain ⟨r, w1⟩ := run
  cases r with
  | error e => simp [FirstErrorContract, firstErrorOfStages]
  | ok job =>
    cases hw : wait job w1 with
    | mk r2 w2 =>
      cases r2 with
      | error e =>
        refine ⟨?_, ?_, ?_, ?_⟩
        · intro e1 a h; cases h
        · intro j a e1 c h1 h2; cases h1; rw [hw] at h2; cases h2; simp [firstErrorOfStages, hw]
        · intro j a st c h1 h2; cases h1; rw [hw] at h2; cases h2
        · simp only [firstErrorOfStages, hw]
          constructor
          · intro h; cases h
          · rintro ⟨j, a, st, c, h1, h2, -⟩; cases h1; rw [hw] at h2; cases h2
      | ok st =>
        refine ⟨?_, ?_, ?_, ?_⟩
        · intro e1 a h; cases h
        · intro j a e1 c h1 h2; cases h1; rw [hw] at h2; cases h2
        · intro j a st1 c h1 h2; cases h1; rw [hw] at h2; cases h2; simp [firstErrorOfStages, hw]
        · simp only [firstErrorOfStages, hw]
          constructor
          · intro h; exact ⟨job, w1, st, w2, rfl, hw, h⟩
          · rintro ⟨j, a, st1, c, h1, h2, h3⟩; cases h1; rw [hw] at h2; cases h2; exact h3

/-- The tail of every job-based method is the pattern of the specification. -/
theorem stages_eq_firstErrorOfStages {W : Type} (run : Except GoErr Job × W)
    (wait : Job → W → Except GoErr JobStatus × W) :
    (match run with
      | (.error err, w1) => (Except.ok (some err, w1) : Except Abort (GoError × W))
      | (.ok job, w1) =>
        match wait job w1 with
        | (.error err, w2) => .ok (some err, w2)
        | (.ok status, w2) =>
          match status.Err with
          | some err => .ok (some err, w2)
          | none => .ok (none, w2))
      = .ok (firstErrorOfStages run wait) := by
  obtain ⟨r, w1⟩ := run
  cases r with
  | error e => simp [firstErrorOfStages]
  | ok job =>
    cases hw : wait job w1 with
    | mk r2 w2 =>
      cases r2 with
      | error e => simp [firstErrorOfStages, hw]
      | ok st =>
        cases hs : st.Err <;> simp [firstErrorOfStages, hw, hs]

theorem listDatasetsLoop_items (c : Client) (ids : List String) (result : List String) :
    listDatasetsLoop (ids.map (fun id => .ok (c.Dataset id))) result = .ok (result ++ ids) := by
  induction ids generalizing result with
  | nil => simp [listDatasetsLoop]
  | cons id ids ih =>
    simp only [List.map_cons, listDatasetsLoop, ih]
    simp [Client.Dataset]

theorem listDatasetsLoop_failure (pre : List Dataset) (e : GoErr) (rest : List (Except GoErr Dataset))
    (result : List String) (he : e ≠ .Done) :
    listDatasetsLoop (pre.map .ok ++ .error e :: rest) result = .error .nilPointerDereference := by
  induction pre generalizing result with
  | nil => simp [listDatasetsLoop, he]
  | cons d pre ih => simp [listDatasetsLoop, ih]

theorem wrapInt64_of_range (x : Int) (h0 : 0 ≤ x) (h1 : x < 2 ^ 63) : wrapInt64 x = x := by
  unfold wrapInt64
  rw [Int.emod_eq_of_lt] <;> omega

theorem browseTableLoop_rows (rows : List Row) (amount : Int) (h0 : 0 ≤ amount)
    (h1 : amount + rows.length < 2 ^ 63) :
    browseTableLoop (rows.map .ok) amount = (amount + rows.length, some .Done) := by
  induction rows generalizing amount with
  | nil => simp [browseTableLoop]
  | cons r rows ih =>
    simp only [List.map_cons, browseTableLoop, List.length_cons, Nat.cast_add, Nat.cast_one] at h1 ⊢
    rw [wrapInt64_of_range (amount + 1) (by omega) (by omega), ih (amount + 1) (by omega) (by omega)]
    congr 1
    omega

theorem browseTableLoop_done (rows : List Row) (amount : Int) :
    (browseTableLoop (rows.map .ok) amount).2 = some .Done := by
  induction rows generalizing amount with
  | nil => simp [browseTableLoop]
  | cons r rows ih => simpa [browseTableLoop] using ih _

theorem browseTableLoop_failure (pre : List Row) (e : GoErr) (rest : List (Except GoErr Row))
    (amount : Int) (he : e ≠ .Done) :
    browseTableLoop (pre.map .ok ++ .error e :: rest) amount = (0, some e) := by
  induction pre generalizing amount with
  | nil => simp [browseTableLoop, he]
  | cons r pre ih => simp [browseTableLoop, ih]

/-! ## Theorems -/

/-- C1, what the code does: for every registered dataset, table id and
non-empty events list, `SaveEvents` hands the error of the streaming insert
back to the caller: when `Put` fails with `e` the call returns `e`, not nil.
The named result `err` is logged and never reset, unlike in `AddDataSet` and
`CreateTableIfNotExist`. -/
theorem SaveEvents_propagates_put_error {W : Type} (sdk : SDK W) (b : BigqueryConnector)
    (datasetID tableID : String) (d : Dataset) (e0 : Iface) (rest : List Iface) (w : W)
    (hd : b.lookup datasetID = some d) :
    SaveEvents sdk b datasetID tableID (e0 :: rest) w
      = .ok ((sdk.Put (d.Table tableID) e0 w).1, (sdk.Put (d.Table tableID) e0 w).2) := by
  simp [SaveEvents, tableOf, hd]

/-- Witness of C1: a failing insert on a registered dataset; the caller
receives the error of the insert. -/
theorem SaveEvents_propagates_put_error_witness :
    (connectorWith "p" ["ds"]).lookup "ds" = some { ProjectID := "p", DatasetID := "ds" } ∧
    SaveEvents (recorder { Script.quiet with answer := fun _ => some (.remote "insert failed") })
        (connectorWith "p" ["ds"]) "ds" "t" [some { typ := "Score", val := "n1" }] []
      = .ok (some (.remote "insert failed"),
          [.Put { ProjectID := "p", DatasetID := "ds", TableID := "t" }
            (some { typ := "Score", val := "n1" })]) :=
  ⟨rfl, SaveEvents_propagates_put_error
    (recorder { Script.quiet with answer := fun _ => some (.remote "insert failed") })
    (connectorWith "p" ["ds"]) "ds" "t" { ProjectID := "p", DatasetID := "ds" }
    (some { typ := "Score", val := "n1" }) [] [] rfl⟩

/-- C2: on an initialised connector (client and registry set), whatever the
remote create call answers, `AddDataSet` returns a nil error; and for a
registered dataset and a sample value, whatever the remote create call
answers and whatever schema inference returned, `CreateTableIfNotExist`
returns a nil error. Each makes the remote create call once. -/
theorem create_operations_swallow_errors {W : Type} (sdk : SDK W) (b : BigqueryConnector) (w : W) :
    (∀ (datasetID : String) (c : Client) (m : String → Option Dataset),
      b.client = some c → b.dataset = some m →
      ∃ b1, AddDataSet sdk b datasetID w
        = .ok ((b1, none), (sdk.DatasetCreate (c.Dataset datasetID) { Name := datasetID } w).2)) ∧
    (∀ (dataExpiration : Int) (sample : Dyn) (tableID datasetID : String) (d : Dataset),
      b.lookup datasetID = some d →
      CreateTableIfNotExist sdk b dataExpiration (some sample) tableID datasetID w
        = .ok (none, (sdk.TableCreate (d.Table tableID)
            { Schema := (sdk.InferSchema { typ := "*" ++ sample.typ, val := "zero" }).1,
              TimePartitioning :=
                { Expiration := wrapInt64 (wrapInt64 dataExpiration * 1000000000) } } w).2)) := by
  constructor
  · intro datasetID c m hc hm
    simp only [AddDataSet, hc, hm, BigqueryConnector.lookup, if_true]
    cases h : sdk.DatasetCreate (c.Dataset datasetID) { Name := datasetID } w with
    | mk e w1 => cases e <;> exact ⟨_, rfl⟩
  · intro dataExpiration sample tableID datasetID d hd
    simp only [CreateTableIfNotExist, reflectNew, reflectTypeOf, Option.map_some', tableOf, hd]
    split <;> simp_all

/-- Witness of C2: both create calls fail remotely and schema inference
fails; both operations return nil. -/
theorem create_operations_swallow_errors_witness :
    (∃ b1, AddDataSet
        (recorder { Script.quiet with
          answer := fun _ => some (.remote "Already Exists"),
          InferSchema := fun _ => ([], some (.remote "not a struct")) })
        (connectorWith "p" ["ds"]) "ds" []
      = .ok ((b1, none),
          [.DatasetCreate { ProjectID := "p", DatasetID := "ds" } { Name := "ds" }])) ∧
    CreateTableIfNotExist
        (recorder { Script.quiet with
          answer := fun _ => some (.remote "Already Exists"),
          InferSchema := fun _ => ([], some (.remote "not a struct")) })
        (connectorWith "p" ["ds"]) 0 (some { typ := "int", val := "12" }) "t" "ds" []
      = .ok (none,
          [.TableCreate { ProjectID := "p", DatasetID := "ds", TableID := "t" }
            { Schema := [], TimePartitioning := { Expiration := 0 } }]) :=
  ⟨(create_operations_swallow_errors
      (recorder { Script.quiet with
        answer := fun _ => some (.remote "Already Exists"),
        InferSchema := fun _ => ([], some (.remote "not a struct")) })
      (connectorWith "p" ["ds"]) []).1 "ds" { projectID := "p" } _ rfl rfl,
   (create_operations_swallow_errors
      (recorder { Script.quiet with
        answer := fun _ => some (.remote "Already Exists"),
        InferSchema := fun _ => ([], some (.remote "not a struct")) })
      (connectorWith "p" ["ds"]) []).2 0 { typ := "int", val := "12" } "t" "ds"
      { ProjectID := "p", DatasetID := "ds" } rfl⟩

/-- C3, what the code does: `listDatasets` never returns a non-nil error, and
when the dataset cursor returns an error other than `iterator.Done` (after any
number of datasets) the call does not return at all: it dereferences the nil
dataset that came with the error. -/
theorem listDatasets_listing_failure_aborts {W : Type} (sdk : SDK W) (b : BigqueryConnector)
    (c : Client) (w : W) (pre : List Dataset) (e : GoErr) (rest : List (Except GoErr Dataset))
    (hc : b.client = some c) (he : e ≠ .Done)
    (hit : sdk.Datasets c w = pre.map .ok ++ .error e :: rest) :
    listDatasets sdk b w = .error .nilPointerDereference ∧
    ∀ (sdk1 : SDK W) (b1 : BigqueryConnector) (w1 : W) (r : List String × GoError),
      listDatasets sdk1 b1 w1 = .ok r → r.2 = none := by
  constructor
  · simp [listDatasets, hc, hit, listDatasetsLoop_failure pre e rest [] he]
  · intro sdk1 b1 w1 r h
    unfold listDatasets at h
    split at h
    · cases h
    · split at h
      · cases h
      · cases h; rfl

/-- Witness of C3: the first `Next` of the dataset cursor fails. -/
theorem listDatasets_listing_failure_aborts_witness :
    listDatasets
        (recorder { Script.quiet with datasets := [.error (.remote "backend error")] })
        (connectorWith "p" []) []
      = .error .nilPointerDereference :=
  (listDatasets_listing_failure_aborts
    (recorder { Script.quiet with datasets := [.error (.remote "backend error")] })
    (connectorWith "p" []) { projectID := "p" } [] [] (.remote "backend error") []
    rfl (by decide) rfl).1

/-- C4: on a registered dataset, each of `copyTable`, `importFromGCS`,
`importFromFile` (once the file is open) and `exportToGCS` returns the result
of the pattern submit, wait, terminal status: the error of the earliest
failing stage, unchanged, with the world that stage left (no later stage is
attempted), and nil exactly when all three stages succeed. -/
theorem job_operations_return_first_error {W : Type} (sdk : SDK W) (b : BigqueryConnector)
    (datasetID : String) (d : Dataset) (w : W) (hd : b.lookup datasetID = some d) :
    (∀ srcID dstID,
      copyTable sdk b datasetID srcID dstID w
        = .ok (firstErrorOfStages
            (sdk.CopierRun { Dst := d.Table dstID, Srcs := [d.Table srcID],
                             WriteDisposition := .WriteTruncate } w) sdk.JobWait)) ∧
    (∀ tableID gcsURI,
      importFromGCS sdk b datasetID tableID gcsURI w
        = .ok (firstErrorOfStages
            (sdk.LoaderRun { Dst := d.Table tableID,
                             Src := .gcs { URIs := [gcsURI], AllowJaggedRows := true,
                                           FieldDelimiter := "" },
                             CreateDisposition := .CreateNever } w) sdk.JobWait)) ∧
    (∀ tableID filename f w0, sdk.osOpen filename w = (.ok f, w0) →
      importFromFile sdk b datasetID tableID filename w
        = .ok (firstErrorOfStages
            (sdk.LoaderRun { Dst := d.Table tableID,
                             Src := .reader { file := f, AllowJaggedRows := true },
                             CreateDisposition := .CreateNever } w0) sdk.JobWait)) ∧
    (∀ tableID gcsURI,
      exportToGCS sdk b datasetID tableID gcsURI w
        = .ok (firstErrorOfStages
            (sdk.ExtractorRun { Src := d.Table tableID,
                                Dst := { URIs := [gcsURI], AllowJaggedRows := false,
                                         FieldDelimiter := "," },
                                DisableHeader := true } w) sdk.JobWait)) ∧
    (∀ (run : Except GoErr Job × W), FirstErrorContract run sdk.JobWait
      (firstErrorOfStages run sdk.JobWait)) := by
  refine ⟨?_, ?_, ?_, ?_, ?_⟩
  · intro srcID dstID
    simp only [copyTable, tableOf, hd]
    exact stages_eq_firstErrorOfStages _ _
  · intro tableID gcsURI
    simp only [importFromGCS, tableOf, hd, NewGCSReference]
    exact stages_eq_firstErrorOfStages _ _
  · intro tableID filename f w0 ho
    simp only [importFromFile, ho, tableOf, hd, NewReaderSource]
    exact stages_eq_firstErrorOfStages _ _
  · intro tableID gcsURI
    simp only [exportToGCS, tableOf, hd, NewGCSReference]
    exact stages_eq_firstErrorOfStages _ _
  · intro run
    exact firstErrorOfStages_contract run sdk.JobWait

/-- Witness of C4: a copy whose submission fails makes the one call `Run`; a
copy whose wait fails makes the calls `Run` and `Wait`; each returns the
failing stage's error. -/
theorem job_operations_return_first_error_witness :
    (connectorWith "p" ["ds"]).lookup "ds" = some { ProjectID := "p", DatasetID := "ds" } ∧
    copyTable (recorder Script.runFails) (connectorWith "p" ["ds"]) "ds" "src" "dst" []
      = .ok (some (.remote "submit failed"),
          [.CopierRun { Dst := { ProjectID := "p", DatasetID := "ds", TableID := "dst" },
                        Srcs := [{ ProjectID := "p", DatasetID := "ds", TableID := "src" }],
                        WriteDisposition := .WriteTruncate }]) ∧
    copyTable (recorder Script.waitFails) (connectorWith "p" ["ds"]) "ds" "src" "dst" []
      = .ok (some (.remote "wait failed"),
          [.CopierRun { Dst := { ProjectID := "p", DatasetID := "ds", TableID := "dst" },
                        Srcs := [{ ProjectID := "p", DatasetID := "ds", TableID := "src" }],
                        WriteDisposition := .WriteTruncate },
           .JobWait { id := 0 }]) :=
  ⟨rfl,
   ((job_operations_return_first_error (recorder Script.runFails) (connectorWith "p" ["ds"])
      "ds" { ProjectID := "p", DatasetID := "ds" } [] rfl).1 "src" "dst").trans rfl,
   ((job_operations_return_first_error (recorder Script.waitFails) (connectorWith "p" ["ds"])
      "ds" { ProjectID := "p", DatasetID := "ds" } [] rfl).1 "src" "dst").trans rfl⟩

/-- C5: for a registered dataset, when the row cursor yields `n` rows without
failure and then signals completion, the integer `browseTable` returns is `n`
(for `n` below `2 ^ 63`, the range of the counter); when a row read fails
with an error other than the end marker, after any number of rows,
`browseTable` returns the count 0 and that error. -/
theorem browseTable_returns_row_count {W : Type} (sdk : SDK W) (b : BigqueryConnector)
    (datasetID tableID : String) (d : Dataset) (w : W) (hd : b.lookup datasetID = some d) :
    (∀ rows : List Row, sdk.Read (d.Table tableID) w = rows.map .ok → rows.length < 2 ^ 63 →
      ∃ err, browseTable sdk b datasetID tableID w = .ok ((rows.length : Int), err)) ∧
    (∀ (pre : List Row) (e : GoErr) (rest : List (Except GoErr Row)), e ≠ .Done →
      sdk.Read (d.Table tableID) w = pre.map .ok ++ .error e :: rest →
      browseTable sdk b datasetID tableID w = .ok (0, some e)) := by
  constructor
  · intro rows hr hlen
    refine ⟨some .Done, ?_⟩
    have hlen1 : (0 : Int) + rows.length < 2 ^ 63 := by
      have : ((rows.length : Nat) : Int) < ((2 ^ 63 : Nat) : Int) := by exact_mod_cast hlen
      simpa using this
    simp [browseTable, tableOf, hd, hr, browseTableLoop_rows rows 0 (le_refl 0) hlen1]
  · intro pre e rest he hr
    simp [browseTable, tableOf, hd, hr, browseTableLoop_failure pre e rest 0 he]

/-- Witness of C5: a table of three rows is counted as 3; a read failing after
one row gives 0 and the error. -/
theorem browseTable_returns_row_count_witness :
    (∃ err, browseTable (recorder { Script.quiet with rows := [.ok ["a"], .ok ["b"], .ok ["c"]] })
        (connectorWith "p" ["ds"]) "ds" "t" [] = .ok (3, err)) ∧
    browseTable
        (recorder { Script.quiet with rows := [.ok ["a"], .error (.remote "read failed")] })
        (connectorWith "p" ["ds"]) "ds" "t" []
      = .ok (0, some (.remote "read failed")) :=
  ⟨(browseTable_returns_row_count
      (recorder { Script.quiet with rows := [.ok ["a"], .ok ["b"], .ok ["c"]] })
      (connectorWith "p" ["ds"]) "ds" "t" { ProjectID := "p", DatasetID := "ds" } [] rfl).1
      [["a"], ["b"], ["c"]] rfl (by decide),
   (browseTable_returns_row_count
      (recorder { Script.quiet with rows := [.ok ["a"], .error (.remote "read failed")] })
      (connectorWith "p" ["ds"]) "ds" "t" { ProjectID := "p", DatasetID := "ds" } [] rfl).2
      [["a"]] (.remote "read failed") [] (by decide) rfl⟩

/-- C6: once a call of `Instance` has returned, every later call, with any
arguments and whatever was registered on the connector in between, returns
the same process state (the same connector, client and registry) and leaves
the world as it is: the initialisation is not run again. -/
theorem Instance_is_singleton {W : Type} (sdk : SDK W) (c1 p1 : String) (p0 p : Process)
    (w0 w : W) (h : Instance sdk c1 p1 p0 w0 = .ok (p, w)) :
    (∀ (c2 p2 : String) (w1 : W), Instance sdk c2 p2 p w1 = .ok (p, w1)) ∧
    (∀ (b : BigqueryConnector) (c2 p2 : String) (w1 : W),
      Instance sdk c2 p2 { p with bigQueryConnector := b } w1
        = .ok ({ p with bigQueryConnector := b }, w1)) := by
  have hp : p.onceBigquery = true := by
    unfold Instance at h
    split at h
    · cases h; assumption
    · split at h
      · split at h
        · cases h
        · split at h
          · cases h
          · split at h
            · cases h
            · cases h; rfl
      · cases h
  constructor
  · intro c2 p2 w1
    simp [Instance, hp]
  · intro b c2 p2 w1
    simp [Instance, hp]

/-- Witness of C6: a first call with a credentials path and a project, then a
call with an empty path and another project, on the recording world: the
second call returns the state of the first and records no call. -/
theorem Instance_is_singleton_witness :
    Instance (recorder Script.quiet) "/tmp/bigquery-credentials/" "pjgg-157508" Process.start []
      = .ok ({ onceBigquery := true,
               bigQueryConnector :=
                 { client := some { projectID := "pjgg-157508" },
                   dataset := some (fun _ => none) } },
             [.ReadFile "/tmp/bigquery-credentials/keyfile.json",
              .JWTConfigFromJSON "key",
              .NewClient "pjgg-157508" (some { key := "key" }),
              .NewClient "pjgg-157508" none]) ∧
    Instance (recorder Script.quiet) "" "other"
        { onceBigquery := true,
          bigQueryConnector :=
            { client := some { projectID := "pjgg-157508" },
              dataset := some (fun _ => none) } }
        [.ReadFile "/tmp/bigquery-credentials/keyfile.json",
         .JWTConfigFromJSON "key",
         .NewClient "pjgg-157508" (some { key := "key" }),
         .NewClient "pjgg-157508" none]
      = .ok ({ onceBigquery := true,
               bigQueryConnector :=
                 { client := some { projectID := "pjgg-157508" },
                   dataset := some (fun _ => none) } },
             [.ReadFile "/tmp/bigquery-credentials/keyfile.json",
              .JWTConfigFromJSON "key",
              .NewClient "pjgg-157508" (some { key := "key" }),
              .NewClient "pjgg-157508" none]) :=
  ⟨rfl,
   (Instance_is_singleton (recorder Script.quiet) "/tmp/bigquery-credentials/" "pjgg-157508"
      Process.start _ [] _ rfl).1 "" "other" _⟩

/-- C7, what the code does: when the registry has no entry for `datasetID`,
`deleteTable`, `listTables`, `browseTable` and `SaveEvents` dereference the
nil handle and abort locally; none of them returns an error to the caller, and
none reaches a remote call. -/
theorem unregistered_dataset_aborts_locally {W : Type} (sdk : SDK W) (b : BigqueryConnector)
    (datasetID tableID : String) (w : W) (hd : b.lookup datasetID = none) :
    deleteTable sdk b datasetID tableID w = .error .nilPointerDereference ∧
    listTables sdk b datasetID w = .error .nilPointerDereference ∧
    browseTable sdk b datasetID tableID w = .error .nilPointerDereference ∧
    (∀ event, SaveEvents sdk b datasetID tableID event w = .error .nilPointerDereference) := by
  refine ⟨?_, ?_, ?_, ?_⟩
  · simp [deleteTable, tableOf, hd]
  · simp [listTables, hd]
  · simp [browseTable, tableOf, hd]
  · intro event
    simp [SaveEvents, tableOf, hd]

/-- Witness of C7: the call of the test set-up, `deleteTable` on a connector
fresh from `Instance`, with a remote side that would report the missing
table. -/
theorem unregistered_dataset_aborts_locally_witness :
    (connectorWith "pjgg-157508" []).lookup "testdataset" = none ∧
    deleteTable (recorder { Script.quiet with answer := fun _ => some (.remote "Not found") })
        (connectorWith "pjgg-157508" []) "testdataset" "test_table" []
      = .error .nilPointerDereference :=
  ⟨rfl,
   (unregistered_dataset_aborts_locally
      (recorder { Script.quiet with answer := fun _ => some (.remote "Not found") })
      (connectorWith "pjgg-157508" []) "testdataset" "test_table" [] rfl).1⟩

/-- C8: with the remote service a set of dataset ids (create adds the id or
fails because it is present, the cursor enumerates every id), on an
initialised connector `AddDataSet id` followed by `listDatasets` returns a
list that contains `id`, and the registry maps `id` to the handle for
`id`. -/
theorem AddDataSet_then_listDatasets_contains (b : BigqueryConnector) (c : Client)
    (m : String → Option Dataset) (ids : List String) (id : String)
    (hc : b.client = some c) (hm : b.dataset = some m) :
    ∃ b1 ids1 l,
      AddDataSet datasetStore b id ids = .ok ((b1, none), ids1) ∧
      listDatasets datasetStore b1 ids1 = .ok (l, none) ∧
      id ∈ l ∧
      b1.lookup id = some (c.Dataset id) := by
  by_cases hmem : id ∈ ids
  · refine ⟨{ b with dataset := some (fun k => if k = id then some (c.Dataset id) else m k) },
      ids, ids, ?_, ?_, hmem, ?_⟩
    · simp [AddDataSet, hc, hm, BigqueryConnector.lookup, datasetStore, Client.Dataset, hmem]
    · have hl := listDatasetsLoop_items c ids []
      simp only [List.nil_append] at hl
      simp [listDatasets, hc, datasetStore, hl]
    · simp [BigqueryConnector.lookup]
  · refine ⟨{ b with dataset := some (fun k => if k = id then some (c.Dataset id) else m k) },
      ids ++ [id], ids ++ [id], ?_, ?_, by simp, ?_⟩
    · simp [AddDataSet, hc, hm, BigqueryConnector.lookup, datasetStore, Client.Dataset, hmem]
    · have hl := listDatasetsLoop_items c (ids ++ [id]) []
      simp only [List.nil_append] at hl
      simp only [listDatasets, hc, datasetStore, hl]
    · simp [BigqueryConnector.lookup]

/-- Witness of C8: the dataset of the test, created on a fresh connector, with
one other dataset present remotely. -/
theorem AddDataSet_then_listDatasets_contains_witness :
    ∃ b1 ids1 l,
      AddDataSet datasetStore (connectorWith "pjgg-157508" []) "testdataset" ["other"]
        = .ok ((b1, none), ids1) ∧
      listDatasets datasetStore b1 ids1 = .ok (l, none) ∧
      "testdataset" ∈ l ∧
      b1.lookup "testdataset" = some { ProjectID := "pjgg-157508", DatasetID := "testdataset" } :=
  AddDataSet_then_listDatasets_contains (connectorWith "pjgg-157508" [])
    { projectID := "pjgg-157508" } _ ["other"] "testdataset" rfl rfl

/-- C9: for a registered dataset, `SaveEvents` on a non-empty events list
makes exactly one call, the streaming insert of `events[0]`, and returns its
result; so two lists with the same first element give the same call and the
same result, on any world; on an empty list it makes no call and returns
nil. -/
theorem SaveEvents_uses_first_event_only (b : BigqueryConnector) (datasetID tableID : String)
    (d : Dataset) (hd : b.lookup datasetID = some d) :
    (∀ (s : Script) (tr : List Call) (e0 : Iface) (rest : List Iface),
      SaveEvents (recorder s) b datasetID tableID (e0 :: rest) tr
        = .ok (s.answer (.Put (d.Table tableID) e0), tr ++ [.Put (d.Table tableID) e0])) ∧
    (∀ (W : Type) (sdk : SDK W) (w : W) (e0 : Iface) (rest rest1 : List Iface),
      SaveEvents sdk b datasetID tableID (e0 :: rest) w
        = SaveEvents sdk b datasetID tableID (e0 :: rest1) w) ∧
    (∀ (W : Type) (sdk : SDK W) (w : W),
      SaveEvents sdk b datasetID tableID [] w = .ok (none, w)) := by
  refine ⟨?_, ?_, ?_⟩
  · intro s tr e0 rest
    simp [SaveEvents, tableOf, hd, recorder]
  · intro W sdk w e0 rest rest1
    simp [SaveEvents, tableOf, hd]
  · intro W sdk w
    simp [SaveEvents, tableOf, hd]

/-- Witness of C9: the call of the test, one argument followed here by two
more; only the first is inserted. -/
theorem SaveEvents_uses_first_event_only_witness :
    SaveEvents (recorder Script.quiet) (connectorWith "p" ["ds"]) "ds" "t"
        [some { typ := "[]Score", val := "n1 13" }, some { typ := "Score", val := "n1 14" }, none] []
      = .ok (none,
          [.Put { ProjectID := "p", DatasetID := "ds", TableID := "t" }
            (some { typ := "[]Score", val := "n1 13" })]) ∧
    SaveEvents (recorder Script.quiet) (connectorWith "p" ["ds"]) "ds" "t" [] []
      = .ok (none, []) :=
  ⟨(SaveEvents_uses_first_event_only (connectorWith "p" ["ds"]) "ds" "t"
      { ProjectID := "p", DatasetID := "ds" } rfl).1 Script.quiet []
      (some { typ := "[]Score", val := "n1 13" }) [some { typ := "Score", val := "n1 14" }, none],
   (SaveEvents_uses_first_event_only (connectorWith "p" ["ds"]) "ds" "t"
      { ProjectID := "p", DatasetID := "ds" } rfl).2.2 (List Call) (recorder Script.quiet) []⟩

/-- C10, what the code does: for a registered dataset, when the row cursor
yields all its rows and then signals the end, the error `browseTable` returns
is the end marker `iterator.Done`, not nil. -/
theorem browseTable_returns_end_marker {W : Type} (sdk : SDK W) (b : BigqueryConnector)
    (datasetID tableID : String) (d : Dataset) (w : W) (rows : List Row)
    (hd : b.lookup datasetID = some d) (hr : sdk.Read (d.Table tableID) w = rows.map .ok) :
    ∃ amount, browseTable sdk b datasetID tableID w = .ok (amount, some .Done) := by
  refine ⟨(browseTableLoop (rows.map .ok) 0).1, ?_⟩
  simp only [browseTable, tableOf, hd, hr]
  rw [← browseTableLoop_done rows 0]

/-- Witness of C10: a table of two rows, read to the end. -/
theorem browseTable_returns_end_marker_witness :
    (connectorWith "p" ["ds"]).lookup "ds" = some { ProjectID := "p", DatasetID := "ds" } ∧
    ∃ amount, browseTable (recorder { Script.quiet with rows := [.ok ["a"], .ok ["b"]] })
        (connectorWith "p" ["ds"]) "ds" "t" []
      = .ok (amount, some .Done) :=
  ⟨rfl, browseTable_returns_end_marker
    (recorder { Script.quiet with rows := [.ok ["a"], .ok ["b"]] })
    (connectorWith "p" ["ds"]) "ds" "t" { ProjectID := "p", DatasetID := "ds" } []
    [["a"], ["b"]] rfl rfl⟩

end Connectors
